import Mathlib

/-!
Shallow embedding of the risk-constrained order-execution path of the
Day-Trader repository: the portfolio ledger, the risk limiter
(src/src/core/RiskManager.js) and the order executor
(src/src/core/TradingEngine.js).

Modelling conventions:
* JavaScript numbers are modelled as exact rationals.  The only
  non-finite values the core can produce come from division by a zero
  portfolio value, so division is modelled by an explicit JS-style
  division `jsDiv` returning a `JsNum` (finite, +Infinity, -Infinity or
  NaN), and the threshold comparisons on its results follow the
  JavaScript comparison semantics (every comparison with NaN is false).
* The price oracle (`getPrice`, a fresh random number per call in the
  source) is modelled by passing a price function `String → ℚ` for each
  oracle-consulting portfolio valuation; theorems quantify over all such
  functions.  Within a single `getPortfolioValue` call each held symbol
  is read exactly once, so one function per call is exact.
* The formatted reason strings of the source (built with `toFixed`) are
  modelled by a `Reason` value carrying the same identity and the raw
  numbers the source interpolates into the string.
* The wall-clock timestamp taken by `recordTrade` is passed in as a
  parameter `now`.
-/

namespace DayTrader

/-- Result of a JavaScript division: finite, an infinity, or NaN. -/
inductive JsNum where
  | fin (q : ℚ)
  | posInf
  | negInf
  | nan
deriving DecidableEq

/-- JavaScript division `a / b` on exact operands: finite quotient when
the denominator is nonzero, otherwise NaN for `0/0` and a signed
infinity for `x/0`, `x ≠ 0`. -/
def jsDiv (a b : ℚ) : JsNum :=
  if b = 0 then
    if a = 0 then .nan else if 0 < a then .posInf else .negInf
  else .fin (a / b)

/-- JavaScript comparison `x <= y` with `y` finite: false whenever `x`
is NaN or +Infinity, true for -Infinity. -/
def JsNum.jsLe (x : JsNum) (y : ℚ) : Bool :=
  match x with
  | .fin q => decide (q ≤ y)
  | .posInf => false
  | .negInf => true
  | .nan => false

/-- JavaScript comparison `x > y` with `y` finite: false whenever `x`
is NaN or -Infinity, true for +Infinity. -/
def JsNum.jsGt (x : JsNum) (y : ℚ) : Bool :=
  match x with
  | .fin q => decide (y < q)
  | .posInf => true
  | .negInf => false
  | .nan => false

/-- One trade record, as pushed by `recordTrade`:
`{ action, symbol, quantity, price, timestamp }`. -/
structure Trade where
  action : String
  symbol : String
  quantity : ℚ
  price : ℚ
  timestamp : ℕ
deriving DecidableEq

/-- The portfolio ledger of `TradingEngine`: cash, the per-symbol
position map (a JS object, modelled as an association list with unique
keys in insertion order) and the append-only history. -/
structure Portfolio where
  cash : ℚ
  positions : List (String × ℚ)
  history : List Trade
deriving DecidableEq

/-- `positions[symbol] || 0`: the quantity held for a symbol, 0 when
the symbol is absent. -/
def getPos (positions : List (String × ℚ)) (symbol : String) : ℚ :=
  match positions with
  | [] => 0
  | kv :: rest => if kv.1 = symbol then kv.2 else getPos rest symbol

/-- `positions[symbol] = q`: JS object assignment — overwrite in place
when the key exists, append the new key otherwise. -/
def setPos (positions : List (String × ℚ)) (symbol : String) (q : ℚ) :
    List (String × ℚ) :=
  match positions with
  | [] => [(symbol, q)]
  | kv :: rest =>
      if kv.1 = symbol then (symbol, q) :: rest
      else kv :: setPos rest symbol q

/-- The three risk limits, fixed at construction of `RiskManager`. -/
structure Limits where
  maxRiskPerTrade : ℚ
  maxPortfolioDrawdown : ℚ
  maxPositionSize : ℚ

/-- The limits installed by the `RiskManager` constructor:
1% risk per trade, 10% drawdown, 20% position size. -/
def defaultLimits : Limits :=
  { maxRiskPerTrade := 1/100
    maxPortfolioDrawdown := 1/10
    maxPositionSize := 1/5 }

/-- Cash plus the oracle value of every held position:
the `totalValue` computed inside `getPortfolioValue`. -/
def portfolioValue (prices : String → ℚ) (pf : Portfolio) : ℚ :=
  pf.positions.foldl (fun acc kv => acc + prices kv.1 * kv.2) pf.cash

/-- `getPortfolioValue()`: returns the computed total value together
with the updated `peakPortfolioValue` (raised exactly when the new
value is strictly higher — the monotonic ratchet). -/
def getPortfolioValue (prices : String → ℚ) (pf : Portfolio) (peak : ℚ) :
    ℚ × ℚ :=
  (portfolioValue prices pf,
   if peak < portfolioValue prices pf then portfolioValue prices pf else peak)

/-- Result record of `checkDrawdown`. -/
structure DrawdownCheck where
  allowed : Bool
  currentDrawdown : JsNum
  peakValue : ℚ
  currentValue : ℚ
deriving DecidableEq

/-- `checkDrawdown()`: value the portfolio (ratcheting the peak), then
`drawdown = (peak - currentValue) / peak` against the updated peak;
allowed iff `drawdown <= maxPortfolioDrawdown` (JS comparison).
Returns the record and the updated peak. -/
def checkDrawdown (L : Limits) (prices : String → ℚ) (pf : Portfolio)
    (peak : ℚ) : DrawdownCheck × ℚ :=
  let v := getPortfolioValue prices pf peak
  let drawdown := jsDiv (v.2 - v.1) v.2
  (⟨drawdown.jsLe L.maxPortfolioDrawdown, drawdown, v.2, v.1⟩, v.2)

/-- Result record of `checkPositionSize`. -/
structure PositionCheck where
  allowed : Bool
  currentSize : JsNum
  positionValue : ℚ
  portfolioValue : ℚ
deriving DecidableEq

/-- `checkPositionSize(symbol, additionalQuantity, price)`: prospective
quantity times price over portfolio value, allowed iff
`positionSize <= maxPositionSize` (JS comparison).  Values the
portfolio (ratcheting the peak). -/
def checkPositionSize (L : Limits) (prices : String → ℚ) (pf : Portfolio)
    (peak : ℚ) (symbol : String) (additionalQuantity price : ℚ) :
    PositionCheck × ℚ :=
  let v := getPortfolioValue prices pf peak
  let newQuantity := getPos pf.positions symbol + additionalQuantity
  let positionValue := newQuantity * price
  let positionSize := jsDiv positionValue v.1
  (⟨positionSize.jsLe L.maxPositionSize, positionSize, positionValue, v.1⟩,
   v.2)

/-- Identity of a `reason` string of the source, with the raw numbers
the source interpolates into the formatted text. -/
inductive Reason where
  | sellOrdersAllowed
  | drawdownExceeded (currentDrawdown : JsNum) (limit : ℚ)
  | positionSizeExceeded (currentSize : JsNum) (limit : ℚ)
  | riskPerTradeExceeded (riskPerTrade : JsNum) (limit : ℚ)
  | tradePassesAllRiskChecks
  | insufficientFunds
deriving DecidableEq

/-- The metrics snapshot returned on an allowed trade (the source
formats each as a percentage string). -/
structure Metrics where
  riskPerTrade : JsNum
  positionSize : JsNum
  drawdown : JsNum
deriving DecidableEq

/-- Result record of `checkTrade`. -/
structure TradeCheck where
  allowed : Bool
  reason : Reason
  metrics : Option Metrics
deriving DecidableEq

/-- `checkTrade(action, symbol, quantity, price)`: non-buy actions are
always allowed; for a buy, check drawdown, then position size, then
risk per trade (`tradeCost / portfolioValue > maxRiskPerTrade` denies),
short-circuiting on the first failure.  `p1`, `p2`, `p3` are the
oracle responses seen by the three successive portfolio valuations.
Returns the record and the threaded peak. -/
def checkTrade (L : Limits) (p1 p2 p3 : String → ℚ) (pf : Portfolio)
    (peak : ℚ) (action symbol : String) (quantity price : ℚ) :
    TradeCheck × ℚ :=
  if action ≠ "buy" then
    (⟨true, .sellOrdersAllowed, none⟩, peak)
  else
    let dc := checkDrawdown L p1 pf peak
    if dc.1.allowed = false then
      (⟨false, .drawdownExceeded dc.1.currentDrawdown L.maxPortfolioDrawdown,
        none⟩, dc.2)
    else
      let pc := checkPositionSize L p2 pf dc.2 symbol quantity price
      if pc.1.allowed = false then
        (⟨false, .positionSizeExceeded pc.1.currentSize L.maxPositionSize,
          none⟩, pc.2)
      else
        let v := getPortfolioValue p3 pf pc.2
        let tradeCost := price * quantity
        let riskPerTrade := jsDiv tradeCost v.1
        if riskPerTrade.jsGt L.maxRiskPerTrade = true then
          (⟨false, .riskPerTradeExceeded riskPerTrade L.maxRiskPerTrade,
            none⟩, v.2)
        else
          (⟨true, .tradePassesAllRiskChecks,
            some ⟨riskPerTrade, pc.1.currentSize, dc.1.currentDrawdown⟩⟩,
           v.2)

/-- Outcome of `buy`: `{success:false, reason}` or
`{success:true, price, quantity, riskMetrics}`. -/
inductive BuyOutcome where
  | rejected (reason : Reason)
  | filled (price quantity : ℚ) (riskMetrics : Option Metrics)
deriving DecidableEq

/-- The `success` field of the returned object. -/
def BuyOutcome.success : BuyOutcome → Bool
  | .rejected _ => false
  | .filled _ _ _ => true

/-- The mutable state of a `TradingEngine` with its `RiskManager`:
the portfolio, the engine memory, the peak value and the recorded
initial capital.  (The `mode` string plays no role in the core.) -/
structure EngineState where
  portfolio : Portfolio
  memory : List Trade
  peakPortfolioValue : ℚ
  initialCapital : ℚ
deriving DecidableEq

/-- The state after `new TradingEngine()`: cash 100000, no positions,
empty history; the `RiskManager` constructor seeds the peak and the
initial capital from the starting cash. -/
def initEngine : EngineState :=
  { portfolio := ⟨100000, [], []⟩
    memory := []
    peakPortfolioValue := 100000
    initialCapital := 100000 }

/-- `buy(symbol, quantity)`: fetch the price (passed in as `price`,
the single oracle read of the executor), risk-check, then execute when
`cash >= cost`, debiting cash, adding the position and appending the
history record; otherwise report insufficient funds.  Denials leave the
ledger untouched (only the peak ratchet inside the risk check moves). -/
def buy (L : Limits) (price : ℚ) (p1 p2 p3 : String → ℚ)
    (st : EngineState) (symbol : String) (quantity : ℚ) (now : ℕ) :
    BuyOutcome × EngineState :=
  let cost := price * quantity
  let rc := checkTrade L p1 p2 p3 st.portfolio st.peakPortfolioValue
      "buy" symbol quantity price
  if rc.1.allowed = false then
    (.rejected rc.1.reason, { st with peakPortfolioValue := rc.2 })
  else if st.portfolio.cash ≥ cost then
    let tr : Trade := ⟨"buy", symbol, quantity, price, now⟩
    (.filled price quantity rc.1.metrics,
     { st with
         portfolio :=
           { cash := st.portfolio.cash - cost
             positions := setPos st.portfolio.positions symbol
               (getPos st.portfolio.positions symbol + quantity)
             history := st.portfolio.history ++ [tr] }
         memory := st.memory ++ [tr]
         peakPortfolioValue := rc.2 })
  else
    (.rejected .insufficientFunds, { st with peakPortfolioValue := rc.2 })

/-! ### Helper lemmas -/

/-- Writing a position and reading the same symbol back yields the
written quantity. -/
theorem getPos_setPos_self (l : List (String × ℚ)) (s : String) (q : ℚ) :
    getPos (setPos l s q) s = q := by
  induction l with
  | nil => simp [setPos, getPos]
  | cons kv rest ih =>
      by_cases h : kv.1 = s
      · simp [setPos, getPos, h]
      · simp [setPos, getPos, h, ih]

/-- One portfolio valuation never lowers the peak. -/
theorem le_getPortfolioValue_peak (p : String → ℚ) (pf : Portfolio)
    (pk : ℚ) : pk ≤ (getPortfolioValue p pf pk).2 := by
  unfold getPortfolioValue
  dsimp only
  split
  · next h => exact le_of_lt h
  · exact le_rfl

/-- The result fields of `checkPositionSize` do not depend on the peak
passed in (only the returned peak does). -/
theorem checkPositionSize_fst_peak_irrel (L : Limits) (p : String → ℚ)
    (pf : Portfolio) (pk1 pk2 : ℚ) (s : String) (q pr : ℚ) :
    (checkPositionSize L p pf pk1 s q pr).1 =
      (checkPositionSize L p pf pk2 s q pr).1 := rfl

/-- `checkTrade` never lowers the peak, whatever branch it takes. -/
theorem checkTrade_peak_le (L : Limits) (p1 p2 p3 : String → ℚ)
    (pf : Portfolio) (peak : ℚ) (action symbol : String)
    (quantity price : ℚ) :
    peak ≤ (checkTrade L p1 p2 p3 pf peak action symbol quantity price).2 := by
  unfold checkTrade
  split
  · exact le_rfl
  · dsimp only
    split
    · exact le_getPortfolioValue_peak p1 pf peak
    · split
      · exact le_trans (le_getPortfolioValue_peak p1 pf peak)
          (le_getPortfolioValue_peak p2 pf _)
      · split
        · exact le_trans (le_getPortfolioValue_peak p1 pf peak)
            (le_trans (le_getPortfolioValue_peak p2 pf _)
              (le_getPortfolioValue_peak p3 pf _))
        · exact le_trans (le_getPortfolioValue_peak p1 pf peak)
            (le_trans (le_getPortfolioValue_peak p2 pf _)
              (le_getPortfolioValue_peak p3 pf _))

/-- No `checkTrade` result ever carries the executor-level
insufficient-funds reason. -/
theorem checkTrade_reason_ne_insufficientFunds (L : Limits)
    (p1 p2 p3 : String → ℚ) (pf : Portfolio) (peak : ℚ)
    (action symbol : String) (quantity price : ℚ) :
    (checkTrade L p1 p2 p3 pf peak action symbol quantity price).1.reason ≠
      Reason.insufficientFunds := by
  unfold checkTrade
  split
  · simp
  · dsimp only
    split
    · simp
    · split
      · simp
      · split
        · simp
        · simp

/-! ### Claim theorems -/

/-- C10: for every action other than BUY (in particular SELL) and every
symbol, quantity, price, ledger state and oracle behaviour, `checkTrade`
returns allowed with the non-buy reason and leaves the peak untouched:
none of the three risk limits is evaluated, so non-buy orders are never
risk-constrained. -/
theorem non_buy_orders_not_risk_limited (L : Limits) (p1 p2 p3 : String → ℚ)
    (pf : Portfolio) (peak : ℚ) (action symbol : String) (quantity price : ℚ)
    (h : action ≠ "buy") :
    checkTrade L p1 p2 p3 pf peak action symbol quantity price =
      (⟨true, .sellOrdersAllowed, none⟩, peak) := by
  unfold checkTrade
  rw [if_pos h]

/-- Witness for C10: a concrete SELL order passes `checkTrade`
unconditionally. -/
theorem non_buy_orders_not_risk_limited_witness :
    checkTrade defaultLimits (fun _ => 150) (fun _ => 150) (fun _ => 150)
      ⟨100000, [], []⟩ 100000 "sell" "AAPL" 10 100 =
      (⟨true, .sellOrdersAllowed, none⟩, 100000) :=
  non_buy_orders_not_risk_limited defaultLimits (fun _ => 150) (fun _ => 150)
    (fun _ => 150) ⟨100000, [], []⟩ 100000 "sell" "AAPL" 10 100 (by decide)

/-- C5: the drawdown and position-size thresholds are inclusive — when
the computed ratio is finite, `checkDrawdown` allows exactly when
`currentDrawdown ≤ maxPortfolioDrawdown` and `checkPositionSize` allows
exactly when `currentSize ≤ maxPositionSize`, so a value exactly at the
threshold is allowed and any strictly greater value is denied. -/
theorem drawdown_and_position_thresholds_inclusive (L : Limits)
    (p : String → ℚ) (pf : Portfolio) (peak : ℚ) (symbol : String)
    (quantity price : ℚ) :
    (∀ d : ℚ, (checkDrawdown L p pf peak).1.currentDrawdown = .fin d →
      ((checkDrawdown L p pf peak).1.allowed = true ↔
        d ≤ L.maxPortfolioDrawdown)) ∧
    (∀ s : ℚ,
      (checkPositionSize L p pf peak symbol quantity price).1.currentSize =
          .fin s →
      ((checkPositionSize L p pf peak symbol quantity price).1.allowed = true ↔
        s ≤ L.maxPositionSize)) := by
  constructor
  · intro d h
    have ha : (checkDrawdown L p pf peak).1.allowed =
        ((checkDrawdown L p pf peak).1.currentDrawdown).jsLe
          L.maxPortfolioDrawdown := rfl
    rw [ha, h]
    simp [JsNum.jsLe]
  · intro s h
    have ha : (checkPositionSize L p pf peak symbol quantity price).1.allowed =
        ((checkPositionSize L p pf peak symbol quantity
          price).1.currentSize).jsLe L.maxPositionSize := rfl
    rw [ha, h]
    simp [JsNum.jsLe]

/-- Witness for C5: a drawdown of exactly 10% (cash 90000 against peak
100000) is allowed, and a prospective position of exactly 20% of the
portfolio (200 shares at 100 against cash 100000) is allowed. -/
theorem drawdown_and_position_thresholds_inclusive_witness :
    (checkDrawdown defaultLimits (fun _ => 150) ⟨90000, [], []⟩
      100000).1.allowed = true ∧
    (checkPositionSize defaultLimits (fun _ => 150) ⟨100000, [], []⟩ 100000
      "AAPL" 200 100).1.allowed = true := by
  constructor
  · exact ((drawdown_and_position_thresholds_inclusive defaultLimits
        (fun _ => 150) ⟨90000, [], []⟩ 100000 "AAPL" 200 100).1 (1/10)
        (by norm_num [checkDrawdown, getPortfolioValue, portfolioValue,
          jsDiv])).mpr (by norm_num [defaultLimits])
  · exact ((drawdown_and_position_thresholds_inclusive defaultLimits
        (fun _ => 150) ⟨100000, [], []⟩ 100000 "AAPL" 200 100).2 (1/5)
        (by norm_num [checkPositionSize, getPortfolioValue, portfolioValue,
          jsDiv, getPos])).mpr (by norm_num [defaultLimits])

/-- C4: `peakPortfolioValue` is monotonically non-decreasing — across
any sequence of `getPortfolioValue` calls with arbitrary oracle prices
and portfolios, each call raises the peak exactly when the newly
computed value exceeds it, and the executor (`buy`, whose risk check is
the only other place valuations happen) never decreases it either. -/
theorem peakPortfolioValue_monotone (steps : List ((String → ℚ) × Portfolio))
    (peak : ℚ) :
    peak ≤ steps.foldl (fun pk step => (getPortfolioValue step.1 step.2 pk).2)
      peak ∧
    (∀ (p : String → ℚ) (pf : Portfolio) (pk : ℚ),
      (getPortfolioValue p pf pk).2 =
        if pk < portfolioValue p pf then portfolioValue p pf else pk) ∧
    (∀ (L : Limits) (price : ℚ) (p1 p2 p3 : String → ℚ) (st : EngineState)
        (symbol : String) (quantity : ℚ) (now : ℕ),
      st.peakPortfolioValue ≤
        ((buy L price p1 p2 p3 st symbol quantity now).2).peakPortfolioValue) := by
  refine ⟨?_, fun p pf pk => rfl, ?_⟩
  · induction steps generalizing peak with
    | nil => exact le_rfl
    | cons step rest ih =>
        exact le_trans (le_getPortfolioValue_peak step.1 step.2 peak)
          (ih ((getPortfolioValue step.1 step.2 peak).2))
  · intro L price p1 p2 p3 st symbol quantity now
    unfold buy
    dsimp only
    split
    · exact checkTrade_peak_le L p1 p2 p3 st.portfolio st.peakPortfolioValue
        "buy" symbol quantity price
    · split
      · exact checkTrade_peak_le L p1 p2 p3 st.portfolio st.peakPortfolioValue
          "buy" symbol quantity price
      · exact checkTrade_peak_le L p1 p2 p3 st.portfolio st.peakPortfolioValue
          "buy" symbol quantity price

/-- C2: for every accepted BUY, the resulting cash equals the prior
cash minus `price * quantity` (exactly — the rational model is exact,
so in particular within any floating-point tolerance), and the
resulting position for the traded symbol equals the prior quantity
(default 0 when absent) plus the bought quantity. -/
theorem buy_conservation (L : Limits) (price : ℚ) (p1 p2 p3 : String → ℚ)
    (st : EngineState) (symbol : String) (quantity : ℚ) (now : ℕ)
    (h : (buy L price p1 p2 p3 st symbol quantity now).1.success = true) :
    ((buy L price p1 p2 p3 st symbol quantity now).2).portfolio.cash =
      st.portfolio.cash - price * quantity ∧
    getPos ((buy L price p1 p2 p3 st symbol quantity
        now).2).portfolio.positions symbol =
      getPos st.portfolio.positions symbol + quantity := by
  by_cases ha : (checkTrade L p1 p2 p3 st.portfolio st.peakPortfolioValue
      "buy" symbol quantity price).1.allowed = false
  · exfalso
    unfold buy at h
    dsimp only at h
    rw [if_pos ha] at h
    simp [BuyOutcome.success] at h
  · by_cases hc : st.portfolio.cash ≥ price * quantity
    · unfold buy
      dsimp only
      rw [if_neg ha, if_pos hc]
      exact ⟨rfl, getPos_setPos_self _ _ _⟩
    · exfalso
      unfold buy at h
      dsimp only at h
      rw [if_neg ha, if_neg hc] at h
      simp [BuyOutcome.success] at h

/-- Witness for C2: the accepted buy of 6 shares at 150 against the
fresh engine leaves cash 99100 and a 6-share position. -/
theorem buy_conservation_witness :
    ((buy defaultLimits 150 (fun _ => 150) (fun _ => 150) (fun _ => 150)
        initEngine "AAPL" 6 0).2).portfolio.cash = 99100 ∧
    getPos ((buy defaultLimits 150 (fun _ => 150) (fun _ => 150)
        (fun _ => 150) initEngine "AAPL" 6 0).2).portfolio.positions "AAPL" =
      6 := by
  have h := buy_conservation defaultLimits 150 (fun _ => 150) (fun _ => 150)
    (fun _ => 150) initEngine "AAPL" 6 0
    (by norm_num [buy, BuyOutcome.success, checkTrade, checkDrawdown,
      checkPositionSize, getPortfolioValue, portfolioValue, jsDiv,
      JsNum.jsLe, JsNum.jsGt, getPos, setPos, defaultLimits, initEngine])
  constructor
  · rw [h.1]
    norm_num [initEngine]
  · rw [h.2]
    norm_num [initEngine, getPos]

/-- C3: every denied order — whether denied by the risk check or by the
insufficient-funds check — leaves the ledger unchanged: same cash, the
same quantity for every symbol, and the same history length. -/
theorem buy_denied_no_mutation (L : Limits) (price : ℚ)
    (p1 p2 p3 : String → ℚ) (st : EngineState) (symbol : String)
    (quantity : ℚ) (now : ℕ)
    (h : (buy L price p1 p2 p3 st symbol quantity now).1.success = false) :
    ((buy L price p1 p2 p3 st symbol quantity now).2).portfolio.cash =
      st.portfolio.cash ∧
    (∀ s, getPos ((buy L price p1 p2 p3 st symbol quantity
        now).2).portfolio.positions s = getPos st.portfolio.positions s) ∧
    ((buy L price p1 p2 p3 st symbol quantity
        now).2).portfolio.history.length = st.portfolio.history.length := by
  by_cases ha : (checkTrade L p1 p2 p3 st.portfolio st.peakPortfolioValue
      "buy" symbol quantity price).1.allowed = false
  · unfold buy
    dsimp only
    rw [if_pos ha]
    exact ⟨rfl, fun s => rfl, rfl⟩
  · by_cases hc : st.portfolio.cash ≥ price * quantity
    · exfalso
      unfold buy at h
      dsimp only at h
      rw [if_neg ha, if_pos hc] at h
      simp [BuyOutcome.success] at h
    · unfold buy
      dsimp only
      rw [if_neg ha, if_neg hc]
      exact ⟨rfl, fun s => rfl, rfl⟩

/-- Witness for C3: the denied buy of 1000 shares at 150 (position-size
denial) leaves the fresh ledger exactly as it was. -/
theorem buy_denied_no_mutation_witness :
    ((buy defaultLimits 150 (fun _ => 150) (fun _ => 150) (fun _ => 150)
        initEngine "AAPL" 1000 0).2).portfolio.cash = 100000 ∧
    getPos ((buy defaultLimits 150 (fun _ => 150) (fun _ => 150)
        (fun _ => 150) initEngine "AAPL" 1000 0).2).portfolio.positions
      "AAPL" = 0 ∧
    ((buy defaultLimits 150 (fun _ => 150) (fun _ => 150) (fun _ => 150)
        initEngine "AAPL" 1000 0).2).portfolio.history.length = 0 := by
  have h := buy_denied_no_mutation defaultLimits 150 (fun _ => 150)
    (fun _ => 150) (fun _ => 150) initEngine "AAPL" 1000 0
    (by norm_num [buy, BuyOutcome.success, checkTrade, checkDrawdown,
      checkPositionSize, getPortfolioValue, portfolioValue, jsDiv,
      JsNum.jsLe, JsNum.jsGt, getPos, setPos, defaultLimits, initEngine])
  exact ⟨h.1, h.2.1 "AAPL", h.2.2⟩

/-- C7: the insufficient-funds check runs strictly after the risk
check — whenever the risk limiter denies (in particular when cash is
also short), the returned rejection carries the risk-denial reason, and
the insufficient-funds reason is returned only when the risk check
passed and `cash < cost`. -/
theorem funds_check_after_risk_check (L : Limits) (price : ℚ)
    (p1 p2 p3 : String → ℚ) (st : EngineState) (symbol : String)
    (quantity : ℚ) (now : ℕ) :
    ((checkTrade L p1 p2 p3 st.portfolio st.peakPortfolioValue "buy" symbol
        quantity price).1.allowed = false →
      (buy L price p1 p2 p3 st symbol quantity now).1 =
        .rejected (checkTrade L p1 p2 p3 st.portfolio st.peakPortfolioValue
          "buy" symbol quantity price).1.reason) ∧
    ((buy L price p1 p2 p3 st symbol quantity now).1 =
        .rejected .insufficientFunds →
      (checkTrade L p1 p2 p3 st.portfolio st.peakPortfolioValue "buy" symbol
        quantity price).1.allowed = true ∧
      st.portfolio.cash < price * quantity) := by
  constructor
  · intro ha
    unfold buy
    dsimp only
    rw [if_pos ha]
  · intro h
    by_cases ha : (checkTrade L p1 p2 p3 st.portfolio st.peakPortfolioValue
        "buy" symbol quantity price).1.allowed = false
    · exfalso
      unfold buy at h
      dsimp only at h
      rw [if_pos ha] at h
      injection h with h2
      exact checkTrade_reason_ne_insufficientFunds L p1 p2 p3 st.portfolio
        st.peakPortfolioValue "buy" symbol quantity price h2
    · by_cases hc : st.portfolio.cash ≥ price * quantity
      · exfalso
        unfold buy at h
        dsimp only at h
        rw [if_neg ha, if_pos hc] at h
        exact BuyOutcome.noConfusion h
      · refine ⟨?_, lt_of_not_ge hc⟩
        cases hA : (checkTrade L p1 p2 p3 st.portfolio st.peakPortfolioValue
            "buy" symbol quantity price).1.allowed
        · exact absurd hA ha
        · rfl

/-- Witness for C7: with cash 10, a large MSFT holding and oracle price
150, buying one AAPL share is rejected for insufficient funds, and the
theorem recovers that the risk check had passed and cash was short. -/
theorem funds_check_after_risk_check_witness :
    (checkTrade defaultLimits (fun _ => 150) (fun _ => 150) (fun _ => 150)
      (⟨10, [("MSFT", 1000)], []⟩ : Portfolio) 150010 "buy" "AAPL" 1
      150).1.allowed = true ∧ (10 : ℚ) < 150 * 1 := by
  exact (funds_check_after_risk_check defaultLimits 150 (fun _ => 150)
    (fun _ => 150) (fun _ => 150) ⟨⟨10, [("MSFT", 1000)], []⟩, [], 150010, 10⟩
    "AAPL" 1 0).2
    (by norm_num [buy, checkTrade, checkDrawdown, checkPositionSize,
      getPortfolioValue, portfolioValue, jsDiv, JsNum.jsLe, JsNum.jsGt,
      getPos, setPos, defaultLimits,
      show ("MSFT" : String) ≠ "AAPL" by decide])

/-- The value component of a portfolio valuation does not depend on the
incoming peak. -/
theorem getPortfolioValue_fst (p : String → ℚ) (pf : Portfolio) (pk : ℚ) :
    (getPortfolioValue p pf pk).1 = portfolioValue p pf := rfl

/-- C6: for every BUY, `checkTrade` evaluates drawdown, then position
size, then risk per trade, short-circuiting on the first failure — the
returned reason is that of the earliest failing check in this order,
and when all three pass it returns allowed with the metrics snapshot
(risk per trade, position size, drawdown). -/
theorem checkTrade_evaluation_order (L : Limits) (p1 p2 p3 : String → ℚ)
    (pf : Portfolio) (peak : ℚ) (symbol : String) (quantity price : ℚ) :
    ((checkDrawdown L p1 pf peak).1.allowed = false →
      (checkTrade L p1 p2 p3 pf peak "buy" symbol quantity price).1 =
        ⟨false, .drawdownExceeded (checkDrawdown L p1 pf peak).1.currentDrawdown
          L.maxPortfolioDrawdown, none⟩) ∧
    ((checkDrawdown L p1 pf peak).1.allowed = true →
      (checkPositionSize L p2 pf peak symbol quantity price).1.allowed =
        false →
      (checkTrade L p1 p2 p3 pf peak "buy" symbol quantity price).1 =
        ⟨false, .positionSizeExceeded
          (checkPositionSize L p2 pf peak symbol quantity price).1.currentSize
          L.maxPositionSize, none⟩) ∧
    ((checkDrawdown L p1 pf peak).1.allowed = true →
      (checkPositionSize L p2 pf peak symbol quantity price).1.allowed =
        true →
      (jsDiv (price * quantity) (portfolioValue p3 pf)).jsGt
        L.maxRiskPerTrade = true →
      (checkTrade L p1 p2 p3 pf peak "buy" symbol quantity price).1 =
        ⟨false, .riskPerTradeExceeded
          (jsDiv (price * quantity) (portfolioValue p3 pf))
          L.maxRiskPerTrade, none⟩) ∧
    ((checkDrawdown L p1 pf peak).1.allowed = true →
      (checkPositionSize L p2 pf peak symbol quantity price).1.allowed =
        true →
      (jsDiv (price * quantity) (portfolioValue p3 pf)).jsGt
        L.maxRiskPerTrade = false →
      (checkTrade L p1 p2 p3 pf peak "buy" symbol quantity price).1 =
        ⟨true, .tradePassesAllRiskChecks,
          some ⟨jsDiv (price * quantity) (portfolioValue p3 pf),
            (checkPositionSize L p2 pf peak symbol quantity
              price).1.currentSize,
            (checkDrawdown L p1 pf peak).1.currentDrawdown⟩⟩) := by
  refine ⟨?_, ?_, ?_, ?_⟩
  · intro h1
    unfold checkTrade
    dsimp only
    rw [if_neg (show ¬(("buy" : String) ≠ "buy") from by simp)]
    simp [h1]
  · intro h1 h2
    unfold checkTrade
    dsimp only
    rw [if_neg (show ¬(("buy" : String) ≠ "buy") from by simp),
      checkPositionSize_fst_peak_irrel L p2 pf (checkDrawdown L p1 pf peak).2
        peak symbol quantity price]
    simp [h1, h2]
  · intro h1 h2 h3
    unfold checkTrade
    dsimp only
    rw [if_neg (show ¬(("buy" : String) ≠ "buy") from by simp),
      checkPositionSize_fst_peak_irrel L p2 pf (checkDrawdown L p1 pf peak).2
        peak symbol quantity price, getPortfolioValue_fst]
    simp [h1, h2, h3]
  · intro h1 h2 h3
    unfold checkTrade
    dsimp only
    rw [if_neg (show ¬(("buy" : String) ≠ "buy") from by simp),
      checkPositionSize_fst_peak_irrel L p2 pf (checkDrawdown L p1 pf peak).2
        peak symbol quantity price, getPortfolioValue_fst]
    simp [h1, h2, h3]

/-- Witness for C6: with all three checks passing (6 shares at 150
against the fresh 100000 portfolio), the composed decision is allowed
with the metrics snapshot. -/
theorem checkTrade_evaluation_order_witness :
    (checkTrade defaultLimits (fun _ => 150) (fun _ => 150) (fun _ => 150)
      ⟨100000, [], []⟩ 100000 "buy" "AAPL" 6 150).1 =
      ⟨true, .tradePassesAllRiskChecks,
        some ⟨jsDiv (150 * 6) (portfolioValue (fun _ => 150)
            ⟨100000, [], []⟩),
          (checkPositionSize defaultLimits (fun _ => 150) ⟨100000, [], []⟩
            100000 "AAPL" 6 150).1.currentSize,
          (checkDrawdown defaultLimits (fun _ => 150) ⟨100000, [], []⟩
            100000).1.currentDrawdown⟩⟩ :=
  (checkTrade_evaluation_order defaultLimits (fun _ => 150) (fun _ => 150)
    (fun _ => 150) ⟨100000, [], []⟩ 100000 "AAPL" 6 150).2.2.2
    (by norm_num [checkDrawdown, getPortfolioValue, portfolioValue, jsDiv,
      JsNum.jsLe, defaultLimits])
    (by norm_num [checkPositionSize, getPortfolioValue, portfolioValue,
      jsDiv, JsNum.jsLe, getPos, defaultLimits])
    (by norm_num [jsDiv, JsNum.jsGt, portfolioValue, defaultLimits])

/-- C8: for every BUY with positive quantity and positive price made
against a portfolio whose computed value is zero, `checkTrade` denies
the trade as a structured rejection (the non-finite ratios arising from
the zero denominator always fail a check), for every limit
configuration and every peak. -/
theorem zero_portfolio_value_denies (L : Limits) (p : String → ℚ)
    (pf : Portfolio) (peak : ℚ) (symbol : String) (quantity price : ℚ)
    (hq : 0 < quantity) (hp : 0 < price)
    (hv : portfolioValue p pf = 0) :
    (checkTrade L p p p pf peak "buy" symbol quantity price).1.allowed =
      false := by
  unfold checkTrade
  dsimp only
  rw [if_neg (show ¬(("buy" : String) ≠ "buy") from by simp)]
  split
  · rfl
  · split
    · rfl
    · split
      · rfl
      · next h3 =>
          exfalso
          apply h3
          rw [getPortfolioValue_fst, hv]
          have hpq : 0 < price * quantity := mul_pos hp hq
          simp [jsDiv, JsNum.jsGt, hpq.ne', hpq]

/-- Witness for C8: a fresh zero-cash session (peak seeded to 0) denies
the purchase of one share at price 1. -/
theorem zero_portfolio_value_denies_witness :
    (checkTrade defaultLimits (fun _ => 0) (fun _ => 0) (fun _ => 0)
      ⟨0, [], []⟩ 0 "buy" "AAPL" 1 1).1.allowed = false :=
  zero_portfolio_value_denies defaultLimits (fun _ => 0) ⟨0, [], []⟩ 0
    "AAPL" 1 1 (by norm_num) (by norm_num) (by norm_num [portfolioValue])

/-- C1 counterexample: with cash 100000, no positions and peak 100000,
buying 10 shares at price 100 makes riskPerTrade = 1000/100000 exactly
equal to maxRiskPerTrade = 1/100 while the drawdown and position-size
checks pass, and `checkTrade` ALLOWS the trade — refuting the claim
that a trade exactly at the risk-per-trade threshold is denied. -/
theorem risk_threshold_equality_counterexample :
    jsDiv (100 * 10) (portfolioValue (fun _ => 150) ⟨100000, [], []⟩) =
      .fin defaultLimits.maxRiskPerTrade ∧
    (checkDrawdown defaultLimits (fun _ => 150) ⟨100000, [], []⟩
      100000).1.allowed = true ∧
    (checkPositionSize defaultLimits (fun _ => 150) ⟨100000, [], []⟩ 100000
      "AAPL" 10 100).1.allowed = true ∧
    (checkTrade defaultLimits (fun _ => 150) (fun _ => 150) (fun _ => 150)
      ⟨100000, [], []⟩ 100000 "buy" "AAPL" 10 100).1.allowed = true := by
  norm_num [checkTrade, checkDrawdown, checkPositionSize, getPortfolioValue,
    portfolioValue, jsDiv, JsNum.jsLe, JsNum.jsGt, getPos, defaultLimits]

/-- C1 (amended): the risk-per-trade threshold is inclusive, like the
other two checks — for a BUY on which the drawdown and position-size
checks pass, `checkTrade` allows iff the risk ratio does not strictly
exceed the limit; with a nonzero portfolio value, allowed iff
`riskPerTrade ≤ maxRiskPerTrade`, so a trade exactly at the threshold
is allowed, and one unit below is likewise allowed. -/
theorem risk_per_trade_threshold_inclusive (L : Limits)
    (p1 p2 p3 : String → ℚ) (pf : Portfolio) (peak : ℚ) (symbol : String)
    (quantity price : ℚ)
    (hd : (checkDrawdown L p1 pf peak).1.allowed = true)
    (hp : (checkPositionSize L p2 pf peak symbol quantity price).1.allowed =
      true) :
    (checkTrade L p1 p2 p3 pf peak "buy" symbol quantity price).1.allowed =
      !((jsDiv (price * quantity) (portfolioValue p3 pf)).jsGt
        L.maxRiskPerTrade) ∧
    (portfolioValue p3 pf ≠ 0 →
      ((checkTrade L p1 p2 p3 pf peak "buy" symbol quantity
          price).1.allowed = true ↔
        price * quantity / portfolioValue p3 pf ≤ L.maxRiskPerTrade)) := by
  have key : (checkTrade L p1 p2 p3 pf peak "buy" symbol quantity
      price).1.allowed =
      !((jsDiv (price * quantity) (portfolioValue p3 pf)).jsGt
        L.maxRiskPerTrade) := by
    unfold checkTrade
    dsimp only
    rw [if_neg (show ¬(("buy" : String) ≠ "buy") from by simp),
      checkPositionSize_fst_peak_irrel L p2 pf (checkDrawdown L p1 pf peak).2
        peak symbol quantity price, getPortfolioValue_fst]
    cases hJ : (jsDiv (price * quantity) (portfolioValue p3 pf)).jsGt
        L.maxRiskPerTrade
    · simp [hd, hp, hJ]
    · simp [hd, hp, hJ]
  refine ⟨key, fun hv => ?_⟩
  rw [key]
  simp [jsDiv, hv, JsNum.jsGt, not_lt]

/-- Witness for C1 (amended): the trade whose risk ratio is exactly the
1% limit is allowed. -/
theorem risk_per_trade_threshold_inclusive_witness :
    (checkTrade defaultLimits (fun _ => 150) (fun _ => 150) (fun _ => 150)
      ⟨100000, [], []⟩ 100000 "buy" "AAPL" 10 100).1.allowed = true := by
  have h := (risk_per_trade_threshold_inclusive defaultLimits (fun _ => 150)
    (fun _ => 150) (fun _ => 150) ⟨100000, [], []⟩ 100000 "AAPL" 10 100
    (by norm_num [checkDrawdown, getPortfolioValue, portfolioValue, jsDiv,
      JsNum.jsLe, defaultLimits])
    (by norm_num [checkPositionSize, getPortfolioValue, portfolioValue,
      jsDiv, JsNum.jsLe, getPos, defaultLimits])).2
  exact (h (by norm_num [portfolioValue])).mpr
    (by norm_num [portfolioValue, defaultLimits])

/-- C9 (code bug): a buy with negative quantity is silently accepted —
against the fresh engine with oracle price 150, buying -10 shares
succeeds, INCREASES cash to 101500, records a negative -10 position and
appends a history record, instead of failing fast with an invalid-input
error and leaving the ledger untouched. -/
theorem negative_quantity_buy_executes :
    (buy defaultLimits 150 (fun _ => 150) (fun _ => 150) (fun _ => 150)
      initEngine "AAPL" (-10) 0).1.success = true ∧
    ((buy defaultLimits 150 (fun _ => 150) (fun _ => 150) (fun _ => 150)
      initEngine "AAPL" (-10) 0).2).portfolio.cash = 101500 ∧
    getPos ((buy defaultLimits 150 (fun _ => 150) (fun _ => 150)
      (fun _ => 150) initEngine "AAPL" (-10) 0).2).portfolio.positions
      "AAPL" = -10 ∧
    ((buy defaultLimits 150 (fun _ => 150) (fun _ => 150) (fun _ => 150)
      initEngine "AAPL" (-10) 0).2).portfolio.history.length = 1 := by
  norm_num [buy, BuyOutcome.success, checkTrade, checkDrawdown,
    checkPositionSize, getPortfolioValue, portfolioValue, jsDiv, JsNum.jsLe,
    JsNum.jsGt, getPos, setPos, defaultLimits, initEngine]

end DayTrader
